import Mathlib

/-!
Shallow embedding of `pythonsrc/ur5_robot/ur5_robot.py` (class `UR5_Robot`).

Numeric values are modelled as rationals. Side effects (controller
commands, waits, sleeps, model updates) are modelled as an explicit
event trace; Python exceptions are modelled as error values that carry
the method's message. `GetDOFValues()` returns a copy of the robot's
DOF values, so mutating the local array in `set_gripper_openning` does
not change the robot state; only `SetDOFValues` (via `_set_dof_value`)
updates the stored DOF values.
-/

/-- The exception kinds the class can raise: the generic
`Exception(...)` for a missing gripper, `ValueError(...)` for an
out-of-range gripper command, and the runtime `AttributeError` hit
when `attach_controller` reads `self.multicontroller` on a robot
constructed with `is_in_simulation` true (the attribute is only
assigned in `__init__` under `if not self.is_in_simulation`,
lines 53-55). -/
inductive PyError where
  | exception (msg : String)
  | valueError (msg : String)
  | attributeError (msg : String)
deriving DecidableEq, Repr

/-- Observable side effects of the methods, in program order:
controller commands (`SetDesired`, `SetPath`, `AttachController`),
task-manipulation calls (`ReleaseFingers`, `CloseFingers`),
synchronisation (`WaitForController`, `time.sleep`), direct model
updates (`SetDOFValues`) and kinbody release (`Release`). -/
inductive Event where
  | setDesired (dofs : List ℚ)
  | setPath
  | attachController (dof_indices : List ℕ)
  | releaseFingers
  | closeFingers
  | waitForController (timeout : ℚ)
  | sleep (seconds : ℚ)
  | setDOFValues (dofs : List ℚ)
  | release
deriving DecidableEq, Repr

/-- The robot state relevant to the claims: the two constructor flags
and the current DOF values (`GetDOFValues`). -/
structure UR5Robot where
  is_in_simulation : Bool
  has_gripper : Bool
  dofValues : List ℚ
deriving DecidableEq, Repr

/-- Result of running a (possibly side-effecting) method: the raised
exception if any, the robot state afterwards, and the trace of events
that occurred before returning or raising. -/
structure Outcome where
  error : Option PyError
  robot : UR5Robot
  events : List Event
deriving DecidableEq, Repr

/-- `self._OPENRAVE_GRIPPER_MAX_VALUE = 0.715584844` (line 48). -/
def OPENRAVE_GRIPPER_MAX_VALUE : ℚ := 715584844 / 1000000000

/-- `self._ROBOT_GRIPPER_MAX_VALUE = 255` (line 49). -/
def ROBOT_GRIPPER_MAX_VALUE : ℚ := 255

/-- Message of the generic `Exception` raised by every gripper method
when the robot was constructed without a gripper. -/
def GRIPPER_NOT_AVAILABLE_MSG : String :=
  "You are trying to use a gripper function while a gripper is not available on your UR5 robot."

/-- Message of the `ValueError` raised by `set_gripper_openning`. -/
def GRIPPER_VALUE_OUT_OF_RANGE_MSG : String :=
  "Gripper value should be between 0 and 255."

/-- Modelled message of the `AttributeError` the Python runtime raises
at line 112 when `self.multicontroller` was never assigned (robot
constructed with `is_in_simulation` true). Apostrophes of the runtime
message are omitted. -/
def MULTICONTROLLER_ATTRIBUTE_ERROR_MSG : String :=
  "UR5_Robot object has no attribute multicontroller"

/-- `UR5_Robot.is_gripper_fully_open`: raises when no gripper,
otherwise returns `self.GetDOFValues()[3] == 0`. -/
def is_gripper_fully_open (r : UR5Robot) : Except PyError Bool :=
  if ¬ r.has_gripper then
    .error (.exception GRIPPER_NOT_AVAILABLE_MSG)
  else
    .ok (decide (r.dofValues.getD 3 0 = 0))

/-- `UR5_Robot.is_gripper_fully_closed`: raises when no gripper,
otherwise returns
`abs(self.GetDOFValues()[3] - self._OPENRAVE_GRIPPER_MAX_VALUE) <= 0.00001`. -/
def is_gripper_fully_closed (r : UR5Robot) : Except PyError Bool :=
  if ¬ r.has_gripper then
    .error (.exception GRIPPER_NOT_AVAILABLE_MSG)
  else
    .ok (decide (|r.dofValues.getD 3 0 - OPENRAVE_GRIPPER_MAX_VALUE| ≤ 1 / 100000))

/-- `UR5_Robot.attach_controller(name, dof_indices)`. The result of
the external call `RaveCreateController(self.GetEnv(), name)` is
passed in as `controller` (`none` models Python `None`). When a
controller was created the method reads `self.multicontroller`: that
attribute was assigned in `__init__` only when
`not self.is_in_simulation` (lines 53-55), so on a simulated robot the
access raises `AttributeError`; on a hardware robot the controller is
attached to the multicontroller and the method returns `True`. When no
controller was created it returns `False` with no effect. -/
def attach_controller (r : UR5Robot) (controller : Option Unit)
    (dof_indices : List ℕ) : Except PyError (Bool × List Event) :=
  match controller with
  | some _ =>
      if r.is_in_simulation then
        .error (.attributeError MULTICONTROLLER_ATTRIBUTE_ERROR_MSG)
      else
        .ok (true, [.attachController dof_indices])
  | none => .ok (false, [])

/-- `UR5_Robot.set_gripper_openning(value)`: raises `Exception` when no
gripper, raises `ValueError` when `value < 0 or value > 255`, otherwise
computes
`model_value = _OPENRAVE_GRIPPER_MAX_VALUE / _ROBOT_GRIPPER_MAX_VALUE * abs(value)`,
writes it at index 3 of a local copy of the DOF values, and issues
`SetDesired`, `WaitForController(0)`, `time.sleep(2)` in that order.
The robot's own DOF values are not modified. -/
def set_gripper_openning (r : UR5Robot) (value : ℚ) : Outcome :=
  if ¬ r.has_gripper then
    ⟨some (.exception GRIPPER_NOT_AVAILABLE_MSG), r, []⟩
  else if value < 0 ∨ value > 255 then
    ⟨some (.valueError GRIPPER_VALUE_OUT_OF_RANGE_MSG), r, []⟩
  else
    let model_value := OPENRAVE_GRIPPER_MAX_VALUE / ROBOT_GRIPPER_MAX_VALUE * |value|
    let dof_values := r.dofValues.set 3 model_value
    ⟨none, r, [.setDesired dof_values, .waitForController 0, .sleep 2]⟩

/-- `UR5_Robot._set_dof_value(index, value)`: copies the DOF values,
overwrites one entry and calls `SetDOFValues` with the result. -/
def _set_dof_value (r : UR5Robot) (index : ℕ) (value : ℚ) :
    UR5Robot × List Event :=
  let dof_values := r.dofValues.set index value
  ({ r with dofValues := dof_values }, [.setDOFValues dof_values])

/-- `UR5_Robot.open_gripper(kinbody, execute)`. `kinbody` is `true`
when a kinbody was passed (Python `kinbody is not None`). Raises when
no gripper; with `execute=False` sets DOF 3 to `0.0` via
`_set_dof_value` and releases the kinbody if given; otherwise in
simulation calls `ReleaseFingers` then `WaitForController(0)`, and on
hardware calls `set_gripper_openning(0)` then releases the kinbody if
given. -/
def open_gripper (r : UR5Robot) (kinbody : Bool) (execute : Bool) : Outcome :=
  if ¬ r.has_gripper then
    ⟨some (.exception GRIPPER_NOT_AVAILABLE_MSG), r, []⟩
  else if ¬ execute then
    let su := _set_dof_value r 3 0.0
    ⟨none, su.1, su.2 ++ (if kinbody then [.release] else [])⟩
  else if r.is_in_simulation then
    ⟨none, r, [.releaseFingers, .waitForController 0]⟩
  else
    let o := set_gripper_openning r 0
    match o.error with
    | some e => ⟨some e, o.robot, o.events⟩
    | none => ⟨none, o.robot, o.events ++ (if kinbody then [.release] else [])⟩

/-- `UR5_Robot.close_gripper(execute)`. Raises when no gripper; with
`execute=False` sets DOF 3 to `_OPENRAVE_GRIPPER_MAX_VALUE` via
`_set_dof_value`; otherwise in simulation calls `CloseFingers` then
`WaitForController(0)`, and on hardware calls
`set_gripper_openning(255)`. -/
def close_gripper (r : UR5Robot) (execute : Bool) : Outcome :=
  if ¬ r.has_gripper then
    ⟨some (.exception GRIPPER_NOT_AVAILABLE_MSG), r, []⟩
  else if ¬ execute then
    let su := _set_dof_value r 3 OPENRAVE_GRIPPER_MAX_VALUE
    ⟨none, su.1, su.2⟩
  else if r.is_in_simulation then
    ⟨none, r, [.closeFingers, .waitForController 0]⟩
  else
    set_gripper_openning r 255

/-- `UR5_Robot.execute_trajectory_and_wait_for_controller(trajectory)`:
`SetPath(trajectory)`, `WaitForController(0)`, `time.sleep(2)`, in
that order. -/
def execute_trajectory_and_wait_for_controller (r : UR5Robot) : Outcome :=
  ⟨none, r, [.setPath, .waitForController 0, .sleep 2]⟩

/-- A concrete robot used by the witnesses: real hardware, gripper
present, six DOFs. -/
def sampleRobot : UR5Robot :=
  { is_in_simulation := false, has_gripper := true, dofValues := [1, 2, 3, 4, 5, 6] }

/-- A concrete simulated robot with a gripper, used by the witnesses. -/
def sampleSimRobot : UR5Robot :=
  { is_in_simulation := true, has_gripper := true, dofValues := [1, 2, 3, 4, 5, 6] }

/-- A concrete robot without a gripper, used by the witnesses. -/
def sampleNoGripperRobot : UR5Robot :=
  { is_in_simulation := false, has_gripper := false, dofValues := [1, 2, 3, 4, 5, 6] }

/-- C1: with the gripper present and an accepted value `0 ≤ v ≤ 255`,
`set_gripper_openning` sends a `SetDesired` command whose entry at DOF
index 3 equals `0.715584844 / 255 * v`; in particular `v = 0` maps to
`0` and `v = 255` maps to `0.715584844`. -/
theorem set_gripper_openning_maps_linearly (r : UR5Robot) (v : ℚ)
    (hg : r.has_gripper = true) (h0 : 0 ≤ v) (h1 : v ≤ 255)
    (hlen : 3 < r.dofValues.length) :
    ∃ dofs rest,
      (set_gripper_openning r v).events = Event.setDesired dofs :: rest ∧
      dofs.getD 3 0 = 715584844 / 1000000000 / 255 * v ∧
      (v = 0 → dofs.getD 3 0 = 0) ∧
      (v = 255 → dofs.getD 3 0 = 715584844 / 1000000000) := by
  have hrange : ¬ (v < 0 ∨ v > 255) := by
    push_neg
    exact ⟨h0, h1⟩
  have hev : (set_gripper_openning r v).events =
      [Event.setDesired
        (r.dofValues.set 3 (OPENRAVE_GRIPPER_MAX_VALUE / ROBOT_GRIPPER_MAX_VALUE * |v|)),
       Event.waitForController 0, Event.sleep 2] := by
    simp [set_gripper_openning, hg, hrange]
  have hget :
      (r.dofValues.set 3
        (OPENRAVE_GRIPPER_MAX_VALUE / ROBOT_GRIPPER_MAX_VALUE * |v|)).getD 3 0
      = OPENRAVE_GRIPPER_MAX_VALUE / ROBOT_GRIPPER_MAX_VALUE * |v| := by
    rw [List.getD_eq_getD_get?, List.get?_set_eq_of_lt _ hlen, Option.getD_some]
  refine ⟨_, _, hev, ?_, ?_, ?_⟩
  · rw [hget, abs_of_nonneg h0]
    simp only [OPENRAVE_GRIPPER_MAX_VALUE, ROBOT_GRIPPER_MAX_VALUE]
  · intro hv
    subst hv
    rw [hget]
    norm_num
  · intro hv
    subst hv
    rw [hget]
    norm_num [OPENRAVE_GRIPPER_MAX_VALUE, ROBOT_GRIPPER_MAX_VALUE]

/-- C1 witness at `v = 51` on a concrete robot. -/
theorem set_gripper_openning_maps_linearly_witness :
    sampleRobot.has_gripper = true ∧ (0 : ℚ) ≤ 51 ∧ (51 : ℚ) ≤ 255 ∧
    3 < sampleRobot.dofValues.length ∧
    (∃ dofs rest,
      (set_gripper_openning sampleRobot 51).events = Event.setDesired dofs :: rest ∧
      dofs.getD 3 0 = 715584844 / 1000000000 / 255 * 51 ∧
      ((51 : ℚ) = 0 → dofs.getD 3 0 = 0) ∧
      ((51 : ℚ) = 255 → dofs.getD 3 0 = 715584844 / 1000000000)) :=
  ⟨rfl, by norm_num, by norm_num, by norm_num [sampleRobot],
    set_gripper_openning_maps_linearly sampleRobot 51 rfl (by norm_num) (by norm_num)
      (by norm_num [sampleRobot])⟩

/-- C2: with the gripper present, `set_gripper_openning` raises
`ValueError` exactly when the value is outside `[0, 255]`, and
succeeds exactly when the value is inside `[0, 255]`. -/
theorem set_gripper_openning_value_range_check (r : UR5Robot) (v : ℚ)
    (hg : r.has_gripper = true) :
    ((set_gripper_openning r v).error
        = some (PyError.valueError GRIPPER_VALUE_OUT_OF_RANGE_MSG) ↔ (v < 0 ∨ v > 255)) ∧
    ((set_gripper_openning r v).error = none ↔ (0 ≤ v ∧ v ≤ 255)) := by
  by_cases hr : v < 0 ∨ v > 255
  · have hr' : ¬ (0 ≤ v ∧ v ≤ 255) := by
      rcases hr with h | h
      · exact fun hc => absurd hc.1 (not_le.mpr h)
      · exact fun hc => absurd hc.2 (not_le.mpr h)
    simp [set_gripper_openning, hg, hr, hr']
  · have hr' : 0 ≤ v ∧ v ≤ 255 := by
      push_neg at hr
      exact hr
    simp [set_gripper_openning, hg, hr, hr']

/-- C2 witness at `v = 300` (rejected) on a concrete robot; the
accepted side is exercised through the same theorem instance. -/
theorem set_gripper_openning_value_range_check_witness :
    sampleRobot.has_gripper = true ∧
    (((set_gripper_openning sampleRobot 300).error
        = some (PyError.valueError GRIPPER_VALUE_OUT_OF_RANGE_MSG)
        ↔ ((300 : ℚ) < 0 ∨ (300 : ℚ) > 255)) ∧
     ((set_gripper_openning sampleRobot 300).error = none
        ↔ ((0 : ℚ) ≤ 300 ∧ (300 : ℚ) ≤ 255))) :=
  ⟨rfl, set_gripper_openning_value_range_check sampleRobot 300 rfl⟩

/-- C3: with `has_gripper` false, every gripper operation raises the
generic `Exception` with the fixed message, regardless of its other
arguments, with no events and no state change. -/
theorem gripper_ops_raise_without_gripper (r : UR5Robot)
    (hg : r.has_gripper = false) :
    is_gripper_fully_open r
      = Except.error (PyError.exception GRIPPER_NOT_AVAILABLE_MSG) ∧
    is_gripper_fully_closed r
      = Except.error (PyError.exception GRIPPER_NOT_AVAILABLE_MSG) ∧
    (∀ v : ℚ, set_gripper_openning r v
      = ⟨some (PyError.exception GRIPPER_NOT_AVAILABLE_MSG), r, []⟩) ∧
    (∀ kinbody execute : Bool, open_gripper r kinbody execute
      = ⟨some (PyError.exception GRIPPER_NOT_AVAILABLE_MSG), r, []⟩) ∧
    (∀ execute : Bool, close_gripper r execute
      = ⟨some (PyError.exception GRIPPER_NOT_AVAILABLE_MSG), r, []⟩) := by
  refine ⟨?_, ?_, ?_, ?_, ?_⟩ <;>
    intros <;>
    simp [is_gripper_fully_open, is_gripper_fully_closed, set_gripper_openning,
      open_gripper, close_gripper, hg]

/-- C3 witness on a concrete robot without a gripper. -/
theorem gripper_ops_raise_without_gripper_witness :
    sampleNoGripperRobot.has_gripper = false ∧
    (is_gripper_fully_open sampleNoGripperRobot
      = Except.error (PyError.exception GRIPPER_NOT_AVAILABLE_MSG) ∧
    is_gripper_fully_closed sampleNoGripperRobot
      = Except.error (PyError.exception GRIPPER_NOT_AVAILABLE_MSG) ∧
    (∀ v : ℚ, set_gripper_openning sampleNoGripperRobot v
      = ⟨some (PyError.exception GRIPPER_NOT_AVAILABLE_MSG), sampleNoGripperRobot, []⟩) ∧
    (∀ kinbody execute : Bool, open_gripper sampleNoGripperRobot kinbody execute
      = ⟨some (PyError.exception GRIPPER_NOT_AVAILABLE_MSG), sampleNoGripperRobot, []⟩) ∧
    (∀ execute : Bool, close_gripper sampleNoGripperRobot execute
      = ⟨some (PyError.exception GRIPPER_NOT_AVAILABLE_MSG), sampleNoGripperRobot, []⟩)) :=
  ⟨rfl, gripper_ops_raise_without_gripper sampleNoGripperRobot rfl⟩

/-- C5: with the gripper present, `is_gripper_fully_open` answers true
iff DOF 3 is exactly `0`, and `is_gripper_fully_closed` answers true
iff DOF 3 is within `0.00001` of `0.715584844`; neither has any side
effect. -/
theorem gripper_fully_open_closed_checks (r : UR5Robot)
    (hg : r.has_gripper = true) :
    (is_gripper_fully_open r = Except.ok true ↔ r.dofValues.getD 3 0 = 0) ∧
    (is_gripper_fully_closed r = Except.ok true ↔
      |r.dofValues.getD 3 0 - 715584844 / 1000000000| ≤ 1 / 100000) := by
  constructor
  · simp [is_gripper_fully_open, hg]
  · simp [is_gripper_fully_closed, hg, OPENRAVE_GRIPPER_MAX_VALUE]

/-- C5 witness on a concrete robot (DOF 3 is `4`, so both checks
answer false there through the iff). -/
theorem gripper_fully_open_closed_checks_witness :
    sampleRobot.has_gripper = true ∧
    ((is_gripper_fully_open sampleRobot = Except.ok true ↔
        sampleRobot.dofValues.getD 3 0 = 0) ∧
     (is_gripper_fully_closed sampleRobot = Except.ok true ↔
        |sampleRobot.dofValues.getD 3 0 - 715584844 / 1000000000| ≤ 1 / 100000)) :=
  ⟨rfl, gripper_fully_open_closed_checks sampleRobot rfl⟩

/-- C4: with the gripper present and `execute = True`, `open_gripper`
and `close_gripper` take exactly one of two paths: in simulation they
call `ReleaseFingers` / `CloseFingers` followed by
`WaitForController(0)`; on hardware they delegate to
`set_gripper_openning` with `0` (open) or `255` (close). -/
theorem open_close_gripper_execute_paths (r : UR5Robot)
    (hg : r.has_gripper = true) :
    (r.is_in_simulation = true →
      (∀ kinbody : Bool, open_gripper r kinbody true
        = ⟨none, r, [Event.releaseFingers, Event.waitForController 0]⟩) ∧
      close_gripper r true
        = ⟨none, r, [Event.closeFingers, Event.waitForController 0]⟩) ∧
    (r.is_in_simulation = false →
      (∀ kinbody : Bool, open_gripper r kinbody true
        = ⟨none, r, (set_gripper_openning r 0).events
            ++ (if kinbody then [Event.release] else [])⟩) ∧
      close_gripper r true = set_gripper_openning r 255) := by
  constructor
  · intro hsim
    constructor
    · intro kinbody
      simp [open_gripper, hg, hsim]
    · simp [close_gripper, hg, hsim]
  · intro hsim
    have hset0 : set_gripper_openning r 0 =
        ⟨none, r, [Event.setDesired
            (r.dofValues.set 3 (OPENRAVE_GRIPPER_MAX_VALUE / ROBOT_GRIPPER_MAX_VALUE * |(0 : ℚ)|)),
          Event.waitForController 0, Event.sleep 2]⟩ := by
      norm_num [set_gripper_openning, hg]
    constructor
    · intro kinbody
      simp [open_gripper, hg, hsim, hset0]
    · simp [close_gripper, hg, hsim]

/-- C4 witness: both branch hypotheses exercised on concrete simulated
and hardware robots via two instances folded into one statement is not
allowed, so the hardware robot instantiates the theorem and both
conjuncts are discharged there. -/
theorem open_close_gripper_execute_paths_witness :
    sampleRobot.has_gripper = true ∧
    ((sampleRobot.is_in_simulation = true →
      (∀ kinbody : Bool, open_gripper sampleRobot kinbody true
        = ⟨none, sampleRobot, [Event.releaseFingers, Event.waitForController 0]⟩) ∧
      close_gripper sampleRobot true
        = ⟨none, sampleRobot, [Event.closeFingers, Event.waitForController 0]⟩) ∧
    (sampleRobot.is_in_simulation = false →
      (∀ kinbody : Bool, open_gripper sampleRobot kinbody true
        = ⟨none, sampleRobot, (set_gripper_openning sampleRobot 0).events
            ++ (if kinbody then [Event.release] else [])⟩) ∧
      close_gripper sampleRobot true = set_gripper_openning sampleRobot 255)) :=
  ⟨rfl, open_close_gripper_execute_paths sampleRobot rfl⟩

/-- C6: `set_gripper_openning` (on success) issues `SetDesired`, then
`WaitForController(0)`, then a fixed 2-second sleep, in that order;
`execute_trajectory_and_wait_for_controller` issues `SetPath`, then
`WaitForController(0)`, then a fixed 2-second sleep, in that order. -/
theorem controller_commands_fixed_delay_sync (r : UR5Robot) (v : ℚ)
    (hg : r.has_gripper = true) (h0 : 0 ≤ v) (h1 : v ≤ 255) :
    (∃ dofs, (set_gripper_openning r v).events =
      [Event.setDesired dofs, Event.waitForController 0, Event.sleep 2]) ∧
    (execute_trajectory_and_wait_for_controller r).events =
      [Event.setPath, Event.waitForController 0, Event.sleep 2] := by
  have hrange : ¬ (v < 0 ∨ v > 255) := by
    push_neg
    exact ⟨h0, h1⟩
  constructor
  · refine ⟨r.dofValues.set 3
      (OPENRAVE_GRIPPER_MAX_VALUE / ROBOT_GRIPPER_MAX_VALUE * |v|), ?_⟩
    simp [set_gripper_openning, hg, hrange]
  · simp [execute_trajectory_and_wait_for_controller]

/-- C6 witness at `v = 100` on a concrete robot. -/
theorem controller_commands_fixed_delay_sync_witness :
    sampleRobot.has_gripper = true ∧ (0 : ℚ) ≤ 100 ∧ (100 : ℚ) ≤ 255 ∧
    ((∃ dofs, (set_gripper_openning sampleRobot 100).events =
      [Event.setDesired dofs, Event.waitForController 0, Event.sleep 2]) ∧
    (execute_trajectory_and_wait_for_controller sampleRobot).events =
      [Event.setPath, Event.waitForController 0, Event.sleep 2]) :=
  ⟨rfl, by norm_num, by norm_num,
    controller_commands_fixed_delay_sync sampleRobot 100 rfl (by norm_num) (by norm_num)⟩

/-- C7: whenever `set_gripper_openning` raises (gripper absent or value
out of range), it raises before any effect: the robot state is
unchanged and no event (no `SetDesired`, no wait, no sleep) was
issued. -/
theorem set_gripper_openning_error_no_effect (r : UR5Robot) (v : ℚ)
    (h : (set_gripper_openning r v).error.isSome = true) :
    (set_gripper_openning r v).robot = r ∧
    (set_gripper_openning r v).events = [] := by
  by_cases hg : r.has_gripper = true
  · by_cases hr : v < 0 ∨ v > 255
    · simp [set_gripper_openning, hg, hr]
    · exfalso
      simp [set_gripper_openning, hg, hr] at h
  · simp [set_gripper_openning, hg]

/-- C7 witness at the rejected value `v = 300` on a concrete robot. -/
theorem set_gripper_openning_error_no_effect_witness :
    (set_gripper_openning sampleRobot 300).error.isSome = true ∧
    ((set_gripper_openning sampleRobot 300).robot = sampleRobot ∧
     (set_gripper_openning sampleRobot 300).events = []) :=
  ⟨by norm_num [set_gripper_openning, sampleRobot],
   set_gripper_openning_error_no_effect sampleRobot 300
     (by norm_num [set_gripper_openning, sampleRobot])⟩

/-- C8: with the gripper present and `execute = False`, `open_gripper`
sets DOF 3 to `0.0` and `close_gripper` sets DOF 3 to `0.715584844`,
leaving every other DOF value unchanged; the only events are the
`SetDOFValues` model update (plus a kinbody `Release` for
`open_gripper`): no controller command, no wait, no sleep. -/
theorem open_close_gripper_no_execute_frame (r : UR5Robot)
    (hg : r.has_gripper = true) (hlen : 3 < r.dofValues.length)
    (kinbody : Bool) :
    ((open_gripper r kinbody false).error = none ∧
     (open_gripper r kinbody false).robot.dofValues.getD 3 0 = 0 ∧
     (∀ i, i ≠ 3 →
       (open_gripper r kinbody false).robot.dofValues.getD i 0
         = r.dofValues.getD i 0) ∧
     (open_gripper r kinbody false).events
       = Event.setDOFValues (r.dofValues.set 3 0.0)
           :: (if kinbody then [Event.release] else []) ∧
     (∀ dofs, Event.setDesired dofs ∉ (open_gripper r kinbody false).events) ∧
     (∀ t, Event.waitForController t ∉ (open_gripper r kinbody false).events) ∧
     (∀ s, Event.sleep s ∉ (open_gripper r kinbody false).events)) ∧
    ((close_gripper r false).error = none ∧
     (close_gripper r false).robot.dofValues.getD 3 0 = 715584844 / 1000000000 ∧
     (∀ i, i ≠ 3 →
       (close_gripper r false).robot.dofValues.getD i 0
         = r.dofValues.getD i 0) ∧
     (close_gripper r false).events
       = [Event.setDOFValues (r.dofValues.set 3 OPENRAVE_GRIPPER_MAX_VALUE)] ∧
     (∀ dofs, Event.setDesired dofs ∉ (close_gripper r false).events) ∧
     (∀ t, Event.waitForController t ∉ (close_gripper r false).events) ∧
     (∀ s, Event.sleep s ∉ (close_gripper r false).events)) := by
  have hopen : open_gripper r kinbody false =
      ⟨none, { r with dofValues := r.dofValues.set 3 0.0 },
        Event.setDOFValues (r.dofValues.set 3 0.0)
          :: (if kinbody then [Event.release] else [])⟩ := by
    cases kinbody <;> simp [open_gripper, _set_dof_value, hg]
  have hclose : close_gripper r false =
      ⟨none, { r with dofValues := r.dofValues.set 3 OPENRAVE_GRIPPER_MAX_VALUE },
        [Event.setDOFValues (r.dofValues.set 3 OPENRAVE_GRIPPER_MAX_VALUE)]⟩ := by
    simp [close_gripper, _set_dof_value, hg]
  have hframe : ∀ (x : ℚ) (i : ℕ), i ≠ 3 →
      (r.dofValues.set 3 x).getD i 0 = r.dofValues.getD i 0 := by
    intro x i hi
    rw [List.getD_eq_getD_get?, List.getD_eq_getD_get?,
      List.get?_set_ne _ _ (Ne.symm hi)]
  have hget : ∀ x : ℚ, (r.dofValues.set 3 x).getD 3 0 = x := by
    intro x
    rw [List.getD_eq_getD_get?, List.get?_set_eq_of_lt _ hlen, Option.getD_some]
  constructor
  · refine ⟨by rw [hopen], ?_, ?_, by rw [hopen], ?_, ?_, ?_⟩
    · rw [hopen]
      show (r.dofValues.set 3 0.0).getD 3 0 = 0
      rw [hget]
      norm_num
    · intro i hi
      rw [hopen]
      exact hframe _ i hi
    all_goals
      intro x
      rw [hopen]
      cases kinbody <;> simp
  · refine ⟨by rw [hclose], ?_, ?_, by rw [hclose], ?_, ?_, ?_⟩
    · rw [hclose]
      show (r.dofValues.set 3 OPENRAVE_GRIPPER_MAX_VALUE).getD 3 0
        = 715584844 / 1000000000
      rw [hget]
      norm_num [OPENRAVE_GRIPPER_MAX_VALUE]
    · intro i hi
      rw [hclose]
      exact hframe _ i hi
    all_goals
      intro x
      rw [hclose]
      simp

/-- C8 witness on a concrete robot with a kinbody passed. -/
theorem open_close_gripper_no_execute_frame_witness :
    sampleRobot.has_gripper = true ∧ 3 < sampleRobot.dofValues.length ∧
    (((open_gripper sampleRobot true false).error = none ∧
     (open_gripper sampleRobot true false).robot.dofValues.getD 3 0 = 0 ∧
     (∀ i, i ≠ 3 →
       (open_gripper sampleRobot true false).robot.dofValues.getD i 0
         = sampleRobot.dofValues.getD i 0) ∧
     (open_gripper sampleRobot true false).events
       = Event.setDOFValues (sampleRobot.dofValues.set 3 0.0)
           :: (if true then [Event.release] else []) ∧
     (∀ dofs, Event.setDesired dofs ∉ (open_gripper sampleRobot true false).events) ∧
     (∀ t, Event.waitForController t ∉ (open_gripper sampleRobot true false).events) ∧
     (∀ s, Event.sleep s ∉ (open_gripper sampleRobot true false).events)) ∧
    ((close_gripper sampleRobot false).error = none ∧
     (close_gripper sampleRobot false).robot.dofValues.getD 3 0
       = 715584844 / 1000000000 ∧
     (∀ i, i ≠ 3 →
       (close_gripper sampleRobot false).robot.dofValues.getD i 0
         = sampleRobot.dofValues.getD i 0) ∧
     (close_gripper sampleRobot false).events
       = [Event.setDOFValues (sampleRobot.dofValues.set 3 OPENRAVE_GRIPPER_MAX_VALUE)] ∧
     (∀ dofs, Event.setDesired dofs ∉ (close_gripper sampleRobot false).events) ∧
     (∀ t, Event.waitForController t ∉ (close_gripper sampleRobot false).events) ∧
     (∀ s, Event.sleep s ∉ (close_gripper sampleRobot false).events))) :=
  ⟨rfl, by norm_num [sampleRobot],
    open_close_gripper_no_execute_frame sampleRobot rfl (by norm_num [sampleRobot]) true⟩

/-- C9 counterexample: on a robot constructed with `is_in_simulation`
true, `self.multicontroller` was never assigned (lines 53-55), so a
successfully created (non-`None`) controller makes `attach_controller`
raise `AttributeError` at line 112 instead of returning `True`: the
claimed unconditional iff fails. -/
theorem attach_controller_on_simulated_robot_counterexample :
    (some () : Option Unit).isSome = true ∧
    attach_controller sampleSimRobot (some ()) [3]
      = Except.error (PyError.attributeError MULTICONTROLLER_ATTRIBUTE_ERROR_MSG) := by
  constructor
  · rfl
  · simp [attach_controller, sampleSimRobot]

/-- C9 (amended): on a robot constructed with `is_in_simulation`
false (so the multicontroller exists), `attach_controller` returns
`True` iff `RaveCreateController` returned a non-`None` controller,
attaching the controller to the multicontroller exactly in that case,
and returns `False` having done nothing iff creation failed; on a
simulated robot a created controller instead raises `AttributeError`
(the counterexample above). -/
theorem attach_controller_creation_check (r : UR5Robot)
    (controller : Option Unit) (dof_indices : List ℕ)
    (hsim : r.is_in_simulation = false) :
    (attach_controller r controller dof_indices
        = Except.ok (true, [Event.attachController dof_indices])
      ↔ controller.isSome = true) ∧
    (attach_controller r controller dof_indices = Except.ok (false, [])
      ↔ controller.isSome = false) := by
  cases controller <;> simp [attach_controller, hsim]

/-- C9 witness on a concrete hardware robot with a created
controller. -/
theorem attach_controller_creation_check_witness :
    sampleRobot.is_in_simulation = false ∧
    ((attach_controller sampleRobot (some ()) [3]
        = Except.ok (true, [Event.attachController [3]])
      ↔ (some () : Option Unit).isSome = true) ∧
    (attach_controller sampleRobot (some ()) [3] = Except.ok (false, [])
      ↔ (some () : Option Unit).isSome = false)) :=
  ⟨rfl, attach_controller_creation_check sampleRobot (some ()) [3] rfl⟩

/-- C10: every accepted `set_gripper_openning` call (one that does not
raise) sends a `SetDesired` whose DOF-3 entry lies within the internal
gripper joint range `[0, 0.715584844]`. -/
theorem set_gripper_openning_sent_value_in_range (r : UR5Robot) (v : ℚ)
    (h : (set_gripper_openning r v).error = none)
    (hlen : 3 < r.dofValues.length) :
    ∃ dofs rest,
      (set_gripper_openning r v).events = Event.setDesired dofs :: rest ∧
      0 ≤ dofs.getD 3 0 ∧ dofs.getD 3 0 ≤ 715584844 / 1000000000 := by
  by_cases hg : r.has_gripper = true
  · by_cases hr : v < 0 ∨ v > 255
    · exfalso
      simp [set_gripper_openning, hg, hr] at h
    · have hr' : 0 ≤ v ∧ v ≤ 255 := by
        push_neg at hr
        exact hr
      have hget : (r.dofValues.set 3
          (OPENRAVE_GRIPPER_MAX_VALUE / ROBOT_GRIPPER_MAX_VALUE * |v|)).getD 3 0
          = OPENRAVE_GRIPPER_MAX_VALUE / ROBOT_GRIPPER_MAX_VALUE * |v| := by
        rw [List.getD_eq_getD_get?, List.get?_set_eq_of_lt _ hlen, Option.getD_some]
      refine ⟨r.dofValues.set 3
          (OPENRAVE_GRIPPER_MAX_VALUE / ROBOT_GRIPPER_MAX_VALUE * |v|),
        [Event.waitForController 0, Event.sleep 2], ?_, ?_, ?_⟩
      · simp [set_gripper_openning, hg, hr]
      · rw [hget, abs_of_nonneg hr'.1]
        have : (0 : ℚ) ≤ OPENRAVE_GRIPPER_MAX_VALUE / ROBOT_GRIPPER_MAX_VALUE := by
          norm_num [OPENRAVE_GRIPPER_MAX_VALUE, ROBOT_GRIPPER_MAX_VALUE]
        exact mul_nonneg this hr'.1
      · rw [hget, abs_of_nonneg hr'.1]
        have hc : OPENRAVE_GRIPPER_MAX_VALUE / ROBOT_GRIPPER_MAX_VALUE * v
            ≤ OPENRAVE_GRIPPER_MAX_VALUE / ROBOT_GRIPPER_MAX_VALUE * 255 := by
          apply mul_le_mul_of_nonneg_left hr'.2
          norm_num [OPENRAVE_GRIPPER_MAX_VALUE, ROBOT_GRIPPER_MAX_VALUE]
        calc OPENRAVE_GRIPPER_MAX_VALUE / ROBOT_GRIPPER_MAX_VALUE * v
            ≤ OPENRAVE_GRIPPER_MAX_VALUE / ROBOT_GRIPPER_MAX_VALUE * 255 := hc
          _ = 715584844 / 1000000000 := by
              norm_num [OPENRAVE_GRIPPER_MAX_VALUE, ROBOT_GRIPPER_MAX_VALUE]
  · exfalso
    simp [set_gripper_openning, hg] at h

/-- C10 witness at `v = 255` on a concrete robot. -/
theorem set_gripper_openning_sent_value_in_range_witness :
    (set_gripper_openning sampleRobot 255).error = none ∧
    3 < sampleRobot.dofValues.length ∧
    (∃ dofs rest,
      (set_gripper_openning sampleRobot 255).events = Event.setDesired dofs :: rest ∧
      0 ≤ dofs.getD 3 0 ∧ dofs.getD 3 0 ≤ 715584844 / 1000000000) :=
  ⟨by norm_num [set_gripper_openning, sampleRobot], by norm_num [sampleRobot],
    set_gripper_openning_sent_value_in_range sampleRobot 255
      (by norm_num [set_gripper_openning, sampleRobot]) (by norm_num [sampleRobot])⟩
